import Mathlib

/-!
Verification of the token-bucket rate limiter in `backend/rate_limiter.py`.

The Python module is shallowly embedded below:
* numbers held in Redis and passed to the Lua script are modelled as `ℚ`
  (Python floats / Lua numbers, with exact arithmetic);
* the Lua script `TOKEN_BUCKET_LUA_SCRIPT` becomes the pure function
  `tokenBucketScript` returning both the reply and the state it stores;
* the Redis round-trip of `RateLimiter.check_rate_limit` is modelled by an
  `Except Unit (Option Bucket)` argument: `.error` is an exception raised
  during the call (connection drop, timeout, ...), `.ok b?` is the bucket
  state the script reads for the key (none = key absent);
* Redis converts Lua numbers in a script's reply to integer replies,
  removing the decimal part, so the Python side receives
  `[allowed, int(tokens), int(capacity), int(rate)]` — the stored hash
  keeps full precision (command arguments are formatted as strings), but
  the reply is truncated; the model truncates the reply fields with
  `pyint` before the Python-side computation;
* `redis_client is None` / `script_sha is None` become the two Booleans of
  `RateLimiterState`.
-/

namespace RL

/-- Python's `int()` on a rational: truncation toward zero. -/
def pyint (q : ℚ) : ℤ := if 0 ≤ q then ⌊q⌋ else ⌈q⌉

/-- One entry of `RATE_LIMITS`: `tokens_per_second` and `burst_capacity`
(the `description` string is dropped). -/
structure RateLimitConfig where
  tokens_per_second : ℚ
  burst_capacity : ℚ
  deriving Repr, DecidableEq

/-- `RATE_LIMITS["ai_authenticated"]`. -/
def RATE_LIMITS_ai_authenticated : RateLimitConfig := ⟨2, 5⟩

/-- `RATE_LIMITS["ai_anonymous"]`. -/
def RATE_LIMITS_ai_anonymous : RateLimitConfig := ⟨1/2, 2⟩

/-- `RATE_LIMITS["api_authenticated"]`. -/
def RATE_LIMITS_api_authenticated : RateLimitConfig := ⟨10, 20⟩

/-- `RATE_LIMITS["api_anonymous"]`. -/
def RATE_LIMITS_api_anonymous : RateLimitConfig := ⟨5, 10⟩

/-- `RATE_LIMITS["auth"]`. -/
def RATE_LIMITS_auth : RateLimitConfig := ⟨1/2, 3⟩

/-- `RateLimiter.get_rate_limit_config` (rate_limiter.py lines 213-233):
`if endpoint_type == "ai": ... elif endpoint_type == "auth": ... else: # "api"`.
The function is total: every label other than `"ai"` and `"auth"` takes the
final `else` branch and receives the `api` policies. -/
def get_rate_limit_config (endpoint_type : String) (is_authenticated : Bool) :
    RateLimitConfig :=
  if endpoint_type = "ai" then
    if is_authenticated then RATE_LIMITS_ai_authenticated else RATE_LIMITS_ai_anonymous
  else if endpoint_type = "auth" then
    RATE_LIMITS_auth
  else
    if is_authenticated then RATE_LIMITS_api_authenticated else RATE_LIMITS_api_anonymous

/-- The Redis hash stored at `rate_limit:<identifier>`: fields `tokens` and
`last_update`. -/
structure Bucket where
  tokens : ℚ
  last_update : ℚ
  deriving Repr, DecidableEq

/-- The refill computation of the Lua script (lines 84-93 of the script's
host file): lazy initialization of an absent bucket, then
`time_passed = math.max(0, now - last_update)`,
`tokens = math.min(capacity, tokens + time_passed * rate)`. -/
def refilledTokens (bucket? : Option Bucket) (now rate capacity : ℚ) : ℚ :=
  let tokens := match bucket? with
    | none => capacity
    | some b => b.tokens
  let last_update := match bucket? with
    | none => now
    | some b => b.last_update
  let time_passed := max 0 (now - last_update)
  let tokens_to_add := time_passed * rate
  min capacity (tokens + tokens_to_add)

/-- What one execution of `TOKEN_BUCKET_LUA_SCRIPT` returns and stores:
the reply `{allowed?, tokens, capacity, rate}`, the hash written by `HMSET`
(as a `Bucket`), and whether `EXPIRE` was called. -/
structure ScriptResult where
  allowed : Bool
  tokens : ℚ
  capacity : ℚ
  rate : ℚ
  stored : Bucket
  expire_reset : Bool
  deriving Repr, DecidableEq

/-- `TOKEN_BUCKET_LUA_SCRIPT` (rate_limiter.py lines 71-108) as a pure
state-transition function. `bucket?` is the state `HMGET` reads; the
`stored` field of the result is the state `HMSET` writes. Both branches
write `(tokens, now)` and call `EXPIRE`; only the admit branch subtracts
`tokens_requested` first. -/
def tokenBucketScript (bucket? : Option Bucket)
    (now rate capacity tokens_requested : ℚ) : ScriptResult :=
  let tokens := refilledTokens bucket? now rate capacity
  if tokens_requested ≤ tokens then
    let tokens := tokens - tokens_requested
    { allowed := true, tokens := tokens, capacity := capacity, rate := rate,
      stored := ⟨tokens, now⟩, expire_reset := true }
  else
    { allowed := false, tokens := tokens, capacity := capacity, rate := rate,
      stored := ⟨tokens, now⟩, expire_reset := true }

/-- The `info` dict returned by `RateLimiter.check_rate_limit`. All four
values the normal path stores are integers: the first three because the
script reply is integer-truncated by Redis, `retry_after` by construction. -/
structure Info where
  tokens_remaining : ℤ
  limit : ℤ
  rate : ℤ
  retry_after : Option ℤ
  deriving Repr, DecidableEq

/-- The sentinel info `{"tokens_remaining": 999, "limit": 999, "rate": 999,
"retry_after": None}` returned when rate limiting is disabled or a store
error occurs (rate_limiter.py lines 146 and 194). -/
def sentinelInfo : Info :=
  { tokens_remaining := 999, limit := 999, rate := 999, retry_after := none }

/-- The `retry_after` computation of `RateLimiter.check_rate_limit`
(lines 172-180). All three inputs are Python ints: `tokens_requested` is
the method's `int` parameter, `tokens_remaining` and `tokens_per_second`
come from the integer-truncated script reply.
`tokens_needed = tokens_requested - tokens_remaining` (int subtraction);
if `tokens_per_second > 0`, `max(1, int(tokens_needed / tokens_per_second) + 1)`
(true division to a float, then truncation), else `1`. -/
def computeRetryAfter (tokens_requested tokens_remaining tokens_per_second : ℤ) : ℤ :=
  let tokens_needed := tokens_requested - tokens_remaining
  if 0 < tokens_per_second then
    max 1 (pyint ((tokens_needed : ℚ) / (tokens_per_second : ℚ)) + 1)
  else
    1

/-- `self.redis is not None` and `self.script_sha is not None` for a
`RateLimiter` instance. `RateLimiter.__init__` sets `redis` from the
module-level `redis_client` and `script_sha` from `script_load`; no method
of the class ever reassigns either field afterwards. -/
structure RateLimiterState where
  redis : Bool
  script_sha : Bool
  deriving Repr, DecidableEq

/-- Module import (rate_limiter.py lines 25-31) composed with
`RateLimiter.__init__` (lines 114-121): if the startup `ping` fails,
`redis_client = None` and the instance has no usable script; if it
succeeds, `script_load` may still fail and leave `script_sha = None`. -/
def RateLimiter.init (startup_ping_ok script_load_ok : Bool) : RateLimiterState :=
  if startup_ping_ok then ⟨true, script_load_ok⟩ else ⟨false, false⟩

/-- `RateLimiter.is_enabled` (lines 123-125). -/
def RateLimiter.is_enabled (st : RateLimiterState) : Bool :=
  st.redis && st.script_sha

/-- `RateLimiter.check_rate_limit` (lines 127-194). The `store` argument is
the outcome of the `evalsha` round-trip: `.error ()` models any exception
raised by the call (caught by the `except` block), `.ok bucket?` models a
successful call against stored state `bucket?`. Redis truncates the Lua
number replies to integers, so lines 167-170 receive
`[allowed, int(tokens), int(capacity), int(rate)]` — modelled by applying
`pyint` to the reply fields — and lines 172-186 compute `retry_after` and
the `info` dict from those truncated values. `tokens_requested` is the
method's `int` parameter. The function is total — it returns a
`(Bool × Info)` pair on every input, including both failure branches,
which return `(True, sentinel)`. -/
def RateLimiter.check_rate_limit (st : RateLimiterState)
    (store : Except Unit (Option Bucket))
    (config : RateLimitConfig) (tokens_requested : ℤ) (now : ℚ) : Bool × Info :=
  if RateLimiter.is_enabled st = false then
    (true, sentinelInfo)
  else
    match store with
    | .error _ => (true, sentinelInfo)
    | .ok bucket? =>
      let rate := config.tokens_per_second
      let capacity := config.burst_capacity
      let r := tokenBucketScript bucket? now rate capacity (tokens_requested : ℚ)
      let tokens_remaining : ℤ := pyint r.tokens
      let limit : ℤ := pyint r.capacity
      let tokens_per_second : ℤ := pyint r.rate
      let retry_after : Option ℤ :=
        if r.allowed then none
        else some (computeRetryAfter tokens_requested tokens_remaining tokens_per_second)
      (r.allowed,
       { tokens_remaining := tokens_remaining, limit := limit,
         rate := tokens_per_second, retry_after := retry_after })

/-- One call of `RateLimiter.check_rate_limit` viewed as a transition on
the limiter's own state. The method body assigns only local variables —
`self.redis` and `self.script_sha` are read but never written, and the
module never rebuilds `redis_client` after import — so the limiter state
after the call is the state before it. -/
def RateLimiter.checkStep (st : RateLimiterState)
    (store : Except Unit (Option Bucket))
    (config : RateLimitConfig) (tokens_requested : ℤ) (now : ℚ) :
    (Bool × Info) × RateLimiterState :=
  (RateLimiter.check_rate_limit st store config tokens_requested now, st)

/-- The parts of the FastAPI `Request` that `get_identifier` reads:
`request.headers.get("X-Forwarded-For")` (`none` = header absent) and
`request.client.host` (`none` = `request.client` is `None`). -/
structure SpecRequest where
  x_forwarded_for : Option String
  client_host : Option String
  deriving Repr, DecidableEq

/-- Python truthiness of an `Optional[str]`: `None` and `""` are falsy. -/
def pyTruthy : Option String → Bool
  | none => false
  | some s => !(s = "")

/-- Helper for `pySplitComma`: walks the characters, cutting at each comma. -/
def splitCommaAux : List Char → List Char → List (List Char)
  | [], acc => [acc.reverse]
  | c :: cs, acc =>
    if c = ',' then acc.reverse :: splitCommaAux cs [] else splitCommaAux cs (c :: acc)

/-- Python's `s.split(",")`: the comma-separated pieces, always at least one. -/
def pySplitComma (s : String) : List String :=
  (splitCommaAux s.data []).map String.mk

/-- Python's `s.strip()`: remove whitespace from both ends. -/
def pyStrip (s : String) : String :=
  String.mk ((s.data.dropWhile Char.isWhitespace).reverse.dropWhile Char.isWhitespace).reverse

/-- The `else` branch of `RateLimiter.get_identifier` (lines 204-209):
`forwarded.split(",")[0].strip()` when the header is truthy, else
`request.client.host if request.client else "unknown"`. -/
def clientIp (req : SpecRequest) : String :=
  if pyTruthy req.x_forwarded_for then
    pyStrip ((pySplitComma (req.x_forwarded_for.getD "")).headD "")
  else
    match req.client_host with
    | some h => h
    | none => "unknown"

/-- `RateLimiter.get_identifier` (lines 196-211): `if user_id:` is Python
truthiness, so `None` and the empty string both fall through to the
address-based key. -/
def get_identifier (req : SpecRequest) (user_id : Option String) : String :=
  if pyTruthy user_id then
    "user:" ++ user_id.getD ""
  else
    "ip:" ++ clientIp req

/-- Trace of one run of the module-level FastAPI dependency
`check_rate_limit` (lines 252-294), recording the values its body computes:
the `is_authenticated` flag, the bucket identifier, the policy looked up,
the decision, and `raised = some r` when it raises `HTTPException(429)`
with `retry_after = r`. -/
structure DepTrace where
  is_authenticated : Bool
  identifier : String
  config : RateLimitConfig
  allowed : Bool
  raised : Option ℤ
  deriving Repr, DecidableEq

/-- The FastAPI dependency `check_rate_limit` (lines 252-294). Returns
`none` when it short-circuits because rate limiting is disabled, else the
trace of the call: `is_authenticated = user_id is not None`, identifier
from `get_identifier`, policy from `get_rate_limit_config`, and an
`HTTPException(429)` exactly when the decision is a denial. -/
def fastapi_check_rate_limit (st : RateLimiterState)
    (store : Except Unit (Option Bucket))
    (req : SpecRequest) (endpoint_type : String) (user_id : Option String)
    (now : ℚ) : Option DepTrace :=
  if RateLimiter.is_enabled st = false then
    none
  else
    let is_authenticated := user_id.isSome
    let identifier := get_identifier req user_id
    let config := get_rate_limit_config endpoint_type is_authenticated
    let res := RateLimiter.check_rate_limit st store config 1 now
    some { is_authenticated := is_authenticated, identifier := identifier,
           config := config, allowed := res.1,
           raised := if res.1 then none else some ((res.2.retry_after).getD 1) }

/-- Stored bucket after `n` sequential cost-1 executions of
`TOKEN_BUCKET_LUA_SCRIPT` for one identifier, all with the same timestamp
`now` (zero elapsed time), starting from an absent bucket. -/
def burstState (rate capacity now : ℚ) : ℕ → Option Bucket
  | 0 => none
  | n + 1 =>
    some (tokenBucketScript (burstState rate capacity now n) now rate capacity 1).stored

/-- Whether the `(i+1)`-st request of such a burst is admitted. -/
def burstAdmitted (rate capacity now : ℚ) (i : ℕ) : Bool :=
  (tokenBucketScript (burstState rate capacity now i) now rate capacity 1).allowed

/-- How many of the first `n` requests of the burst are admitted. -/
def burstAdmitCount (rate capacity now : ℚ) (n : ℕ) : ℕ :=
  (List.range n).countP (fun i => burstAdmitted rate capacity now i)

end RL

open RL

lemma check_rate_limit_of_disabled (st : RateLimiterState)
    (h : RateLimiter.is_enabled st = false) (store : Except Unit (Option Bucket))
    (config : RateLimitConfig) (tokens_requested : ℤ) (now : ℚ) :
    RateLimiter.check_rate_limit st store config tokens_requested now
      = (true, sentinelInfo) := by
  simp [RateLimiter.check_rate_limit, h]

/-- Claim C1: every store failure — the store unreachable at startup
(Disabled state), or an exception raised during a single bucket update —
makes `RateLimiter.check_rate_limit` return `allowed = true` with the
sentinel quota values.  The embedded function is total (`Bool × Info` on
every input), so no error reaches the caller. -/
theorem C1_store_failure_fails_open :
    (∀ (script_load_ok : Bool) (store : Except Unit (Option Bucket))
        (config : RateLimitConfig) (tokens_requested : ℤ) (now : ℚ),
        RateLimiter.check_rate_limit (RateLimiter.init false script_load_ok)
            store config tokens_requested now = (true, sentinelInfo)) ∧
    (∀ (st : RateLimiterState) (e : Unit) (config : RateLimitConfig)
        (tokens_requested : ℤ) (now : ℚ),
        RateLimiter.check_rate_limit st (Except.error e) config tokens_requested now
          = (true, sentinelInfo)) := by
  constructor
  · intro s store config tr now
    exact check_rate_limit_of_disabled (RateLimiter.init false s) rfl _ _ _ _
  · intro st e config tr now
    by_cases h : RateLimiter.is_enabled st = false
    · exact check_rate_limit_of_disabled _ h _ _ _ _
    · simp [RateLimiter.check_rate_limit, h]

/-- Claim C9: both branches of the Lua script store the refilled token
value together with the current time and reset the expiry; the denial
branch differs from the admission branch only in not subtracting the cost.
In particular every invocation advances `last_update` to `now`. -/
theorem C9_denial_still_writes_state :
    ∀ (bucket? : Option Bucket) (now rate capacity cost : ℚ),
      (tokenBucketScript bucket? now rate capacity cost).stored
          = ⟨if (tokenBucketScript bucket? now rate capacity cost).allowed
               then refilledTokens bucket? now rate capacity - cost
               else refilledTokens bucket? now rate capacity, now⟩
        ∧ (tokenBucketScript bucket? now rate capacity cost).expire_reset = true
        ∧ (tokenBucketScript bucket? now rate capacity cost).stored.last_update = now := by
  intro bucket? now rate capacity cost
  by_cases h : cost ≤ refilledTokens bucket? now rate capacity <;>
    simp [tokenBucketScript, h]

/-- Claim C5 fails on the code: a limiter whose startup `ping` failed has
`redis_client = None` forever — `check_rate_limit` short-circuits on
`is_enabled` without touching the store, so a later call made while the
store is reachable (here with a drained bucket available at the key) still
returns the fail-open sentinel and leaves the limiter Disabled. -/
theorem C5_counterexample :
    RateLimiter.init false true = ⟨false, false⟩
      ∧ RateLimiter.checkStep ⟨false, false⟩ (Except.ok (some ⟨0, 0⟩)) ⟨1/2, 2⟩ 1 5
          = ((true, sentinelInfo), ⟨false, false⟩)
      ∧ RateLimiter.is_enabled ⟨false, false⟩ = false := by
  refine ⟨rfl, ?_, rfl⟩
  simp [RateLimiter.checkStep, RateLimiter.check_rate_limit, RateLimiter.is_enabled,
    sentinelInfo]

/-- Claim C5 amended: a limiter that starts Disabled because the store was
unreachable at startup stays Disabled for the whole process lifetime —
every later call returns the fail-open sentinel and leaves the state
unchanged, store reachable or not.  No call changes the limiter state at
all.  Cooldown-free recovery holds only for transient per-call errors of
an Enabled limiter: an erroring call returns the sentinel with the limiter
still Enabled, and a succeeding call runs normal bucket accounting. -/
theorem C5_amended_startup_disabled_is_permanent :
    (∀ (script_load_ok : Bool) (store : Except Unit (Option Bucket))
        (config : RateLimitConfig) (cost : ℤ) (now : ℚ),
        RateLimiter.checkStep (RateLimiter.init false script_load_ok) store config cost now
          = ((true, sentinelInfo), RateLimiter.init false script_load_ok)) ∧
    (∀ (st : RateLimiterState) (store : Except Unit (Option Bucket))
        (config : RateLimitConfig) (cost : ℤ) (now : ℚ),
        (RateLimiter.checkStep st store config cost now).2 = st) ∧
    (∀ (e : Unit) (config : RateLimitConfig) (cost : ℤ) (now : ℚ),
        RateLimiter.checkStep ⟨true, true⟩ (Except.error e) config cost now
          = ((true, sentinelInfo), ⟨true, true⟩)) ∧
    (∀ (bucket? : Option Bucket) (config : RateLimitConfig) (cost : ℤ) (now : ℚ),
        (RateLimiter.checkStep ⟨true, true⟩ (Except.ok bucket?) config cost now).1.1
          = (tokenBucketScript bucket? now config.tokens_per_second
              config.burst_capacity (cost : ℚ)).allowed) := by
  refine ⟨?_, ?_, ?_, ?_⟩
  · intro s store config cost now
    simp only [RateLimiter.checkStep]
    rw [check_rate_limit_of_disabled (RateLimiter.init false s) rfl]
  · intro st store config cost now
    rfl
  · intro e config cost now
    simp [RateLimiter.checkStep, RateLimiter.check_rate_limit, RateLimiter.is_enabled]
  · intro bucket? config cost now
    simp [RateLimiter.checkStep, RateLimiter.check_rate_limit, RateLimiter.is_enabled]

/-- Claim C6 fails on the code: `get_rate_limit_config` has no error path —
its final `else` treats every label other than `"ai"` and `"auth"` as
`"api"`, so an unknown endpoint-class label silently receives the `api`
policies and produces an ordinary runtime admission outcome. -/
theorem C6_counterexample :
    get_rate_limit_config "bogus" true = RATE_LIMITS_api_authenticated
      ∧ get_rate_limit_config "bogus" false = RATE_LIMITS_api_anonymous
      ∧ ("bogus" : String) ≠ "ai" ∧ ("bogus" : String) ≠ "api"
      ∧ ("bogus" : String) ≠ "auth" :=
  ⟨rfl, rfl, by decide, by decide, by decide⟩

/-- Claim C6 amended: for every endpoint-class label other than `"ai"` and
`"auth"` — unknown labels included — the policy lookup silently returns the
default `api` policy for the given authentication flag; no error is
raised. -/
theorem C6_amended_unknown_label_gets_api_policy :
    ∀ (endpoint_type : String) (is_authenticated : Bool),
      endpoint_type ≠ "ai" → endpoint_type ≠ "auth" →
      get_rate_limit_config endpoint_type is_authenticated
        = if is_authenticated then RATE_LIMITS_api_authenticated
          else RATE_LIMITS_api_anonymous := by
  intro s b h1 h2
  simp [get_rate_limit_config, h1, h2]

/-- Witness for the amended C6 at the concrete unknown label `"mystery"`. -/
theorem C6_amended_witness :
    ("mystery" : String) ≠ "ai" ∧ ("mystery" : String) ≠ "auth"
      ∧ get_rate_limit_config "mystery" false = RATE_LIMITS_api_anonymous :=
  ⟨by decide, by decide, by
    simpa using C6_amended_unknown_label_gets_api_policy "mystery" false
      (by decide) (by decide)⟩

lemma pyTruthy_some_of_ne (s : String) (h : s ≠ "") : pyTruthy (some s) = true := by
  simp [pyTruthy, h]

lemma pyTruthy_none : pyTruthy none = false := rfl

/-- Claim C7 fails on the code: `if user_id:` uses Python truthiness, so a
supplied-but-empty identity falls through to the address-based key — two
requests with the same (empty) identity but different addresses get
different keys, and the returned key is not `"user:" + identity`. -/
theorem C7_counterexample :
    get_identifier ⟨none, some "1.2.3.4"⟩ (some "") = "ip:1.2.3.4"
      ∧ get_identifier ⟨none, some "5.6.7.8"⟩ (some "") = "ip:5.6.7.8"
      ∧ ("ip:1.2.3.4" : String) ≠ "user:" ++ ""
      ∧ ("ip:1.2.3.4" : String) ≠ "ip:5.6.7.8" :=
  ⟨rfl, rfl, by decide, by decide⟩

/-- Claim C7 amended: `get_identifier` returns `"user:" + identity`
whenever a nonempty identity is supplied, regardless of addresses (same
nonempty identity, different addresses: same key; distinct nonempty
identities: distinct keys); with no identity — or an empty one — it falls
back to the first comma-separated forwarded-header entry stripped, else
the transport peer address, else `"ip:unknown"`. -/
theorem C7_amended_identity_precedence :
    (∀ (req : SpecRequest) (s : String), s ≠ "" →
        get_identifier req (some s) = "user:" ++ s)
      ∧ (∀ (req req' : SpecRequest) (s : String), s ≠ "" →
          get_identifier req (some s) = get_identifier req' (some s))
      ∧ (∀ (req req' : SpecRequest) (s t : String), s ≠ "" → t ≠ "" → s ≠ t →
          get_identifier req (some s) ≠ get_identifier req' (some t))
      ∧ (∀ (fwd : String) (host : Option String), fwd ≠ "" →
          get_identifier ⟨some fwd, host⟩ none
            = "ip:" ++ pyStrip ((pySplitComma fwd).headD ""))
      ∧ (∀ (host : String) (fwd? : Option String), pyTruthy fwd? = false →
          get_identifier ⟨fwd?, some host⟩ none = "ip:" ++ host)
      ∧ (∀ (fwd? : Option String), pyTruthy fwd? = false →
          get_identifier ⟨fwd?, none⟩ none = "ip:unknown") := by
  have key : ∀ (req : SpecRequest) (s : String), s ≠ "" →
      get_identifier req (some s) = "user:" ++ s := by
    intro req s hs
    simp [get_identifier, pyTruthy_some_of_ne s hs]
  refine ⟨key, ?_, ?_, ?_, ?_, ?_⟩
  · intro req req' s hs
    rw [key req s hs, key req' s hs]
  · intro req req' s t hs ht hst
    rw [key req s hs, key req' t ht]
    intro h
    apply hst
    have hd := congrArg String.data h
    simp only [String.data_append] at hd
    exact String.ext (List.append_cancel_left hd)
  · intro fwd host hfwd
    simp [get_identifier, clientIp, pyTruthy_none, pyTruthy_some_of_ne fwd hfwd]
  · intro host fwd? hfwd
    simp [get_identifier, clientIp, pyTruthy_none, hfwd]
  · intro fwd? hfwd
    simp [get_identifier, clientIp, pyTruthy_none, hfwd]

/-- Witness for the amended C7 at concrete inputs: a nonempty identity
beats differing addresses, distinct identities split, and the forwarded
header is parsed for anonymous callers. -/
theorem C7_amended_witness :
    (("alice" : String) ≠ ""
      ∧ get_identifier ⟨none, some "1.2.3.4"⟩ (some "alice") = "user:" ++ "alice"
      ∧ get_identifier ⟨none, some "1.2.3.4"⟩ (some "alice")
          = get_identifier ⟨none, some "5.6.7.8"⟩ (some "alice"))
      ∧ (("bob" : String) ≠ "alice"
        ∧ get_identifier ⟨none, some "1.2.3.4"⟩ (some "alice")
            ≠ get_identifier ⟨none, some "1.2.3.4"⟩ (some "bob"))
      ∧ ((" 10.0.0.1 , 10.0.0.2" : String) ≠ ""
        ∧ get_identifier ⟨some " 10.0.0.1 , 10.0.0.2", some "9.9.9.9"⟩ none
            = "ip:" ++ pyStrip ((pySplitComma " 10.0.0.1 , 10.0.0.2").headD "")
        ∧ pyStrip ((pySplitComma " 10.0.0.1 , 10.0.0.2").headD "") = "10.0.0.1")
      ∧ get_identifier ⟨none, some "9.9.9.9"⟩ none = "ip:" ++ "9.9.9.9"
      ∧ get_identifier ⟨none, none⟩ none = "ip:unknown" :=
  ⟨⟨by decide, C7_amended_identity_precedence.1 ⟨none, some "1.2.3.4"⟩ "alice" (by decide),
      C7_amended_identity_precedence.2.1 ⟨none, some "1.2.3.4"⟩ ⟨none, some "5.6.7.8"⟩
        "alice" (by decide)⟩,
    ⟨by decide, C7_amended_identity_precedence.2.2.1 ⟨none, some "1.2.3.4"⟩
        ⟨none, some "1.2.3.4"⟩ "alice" "bob" (by decide) (by decide) (by decide)⟩,
    ⟨by decide, C7_amended_identity_precedence.2.2.2.1 " 10.0.0.1 , 10.0.0.2"
        (some "9.9.9.9") (by decide), by decide⟩,
    C7_amended_identity_precedence.2.2.2.2.1 "9.9.9.9" none rfl,
    C7_amended_identity_precedence.2.2.2.2.2 none rfl⟩

/-- Claim C10: the FastAPI dependency called with `user_id = ""` computes
`is_authenticated = true` (the flag is `user_id is not None`) yet keys the
bucket by the caller address (`if user_id:` is falsy on the empty string),
so the empty-string identity receives the authenticated policy on an
IP-scoped bucket. -/
theorem C10_empty_user_id_auth_policy_ip_bucket :
    ∀ (st : RateLimiterState) (store : Except Unit (Option Bucket))
      (req : SpecRequest) (endpoint_type : String) (now : ℚ),
      RateLimiter.is_enabled st = true →
      (fastapi_check_rate_limit st store req endpoint_type (some "") now).map
          DepTrace.is_authenticated = some true
        ∧ (fastapi_check_rate_limit st store req endpoint_type (some "") now).map
            DepTrace.identifier = some ("ip:" ++ clientIp req)
        ∧ (fastapi_check_rate_limit st store req endpoint_type (some "") now).map
            DepTrace.config = some (get_rate_limit_config endpoint_type true) := by
  intro st store req et now h
  simp [fastapi_check_rate_limit, h, get_identifier, pyTruthy]

/-- Witness for C10 at a concrete enabled limiter, address and class. -/
theorem C10_witness :
    RateLimiter.is_enabled ⟨true, true⟩ = true
      ∧ ((fastapi_check_rate_limit ⟨true, true⟩ (Except.ok none)
              ⟨none, some "7.7.7.7"⟩ "ai" (some "") 0).map
            DepTrace.is_authenticated = some true
        ∧ (fastapi_check_rate_limit ⟨true, true⟩ (Except.ok none)
              ⟨none, some "7.7.7.7"⟩ "ai" (some "") 0).map
            DepTrace.identifier = some ("ip:" ++ clientIp ⟨none, some "7.7.7.7"⟩)
        ∧ (fastapi_check_rate_limit ⟨true, true⟩ (Except.ok none)
              ⟨none, some "7.7.7.7"⟩ "ai" (some "") 0).map
            DepTrace.config = some (get_rate_limit_config "ai" true)) :=
  ⟨rfl, C10_empty_user_id_auth_policy_ip_bucket ⟨true, true⟩ (Except.ok none)
      ⟨none, some "7.7.7.7"⟩ "ai" 0 rfl⟩

/-- Claim C8: an enabled limiter whose bucket holds too few tokens returns
the denial as an ordinary value — `allowed = false` with the quota
metadata built from the integer-truncated script reply — through the total
function `RateLimiter.check_rate_limit`; no exception channel exists for a
normal denial. -/
theorem C8_denial_is_a_value :
    ∀ (st : RateLimiterState) (bucket? : Option Bucket)
      (config : RateLimitConfig) (tokens_requested : ℤ) (now : ℚ),
      RateLimiter.is_enabled st = true →
      refilledTokens bucket? now config.tokens_per_second config.burst_capacity
          < (tokens_requested : ℚ) →
      RateLimiter.check_rate_limit st (Except.ok bucket?) config tokens_requested now
        = (false,
            { tokens_remaining := pyint (refilledTokens bucket? now
                  config.tokens_per_second config.burst_capacity),
              limit := pyint config.burst_capacity,
              rate := pyint config.tokens_per_second,
              retry_after := some (computeRetryAfter tokens_requested
                  (pyint (refilledTokens bucket? now config.tokens_per_second
                    config.burst_capacity)) (pyint config.tokens_per_second)) }) := by
  intro st bucket? config tr now h hlt
  have hna : ¬ (tr : ℚ) ≤ refilledTokens bucket? now config.tokens_per_second
      config.burst_capacity := not_le.mpr hlt
  simp [RateLimiter.check_rate_limit, h, tokenBucketScript, hna]

/-- Witness for C8: a drained bucket denies a cost-1 request as a value
(with the 0.5 rate truncated to 0 in the reply, so `retry_after` is the
`rate <= 0` fallback 1). -/
theorem C8_witness :
    RateLimiter.is_enabled ⟨true, true⟩ = true
      ∧ refilledTokens (some ⟨0, 0⟩) 0 ((1:ℚ)/2) 2 < ((1:ℤ) : ℚ)
      ∧ RateLimiter.check_rate_limit ⟨true, true⟩ (Except.ok (some ⟨0, 0⟩)) ⟨1/2, 2⟩ 1 0
          = (false,
              { tokens_remaining := pyint (refilledTokens (some ⟨0, 0⟩) 0 ((1:ℚ)/2) 2),
                limit := pyint ((2:ℚ)),
                rate := pyint ((1:ℚ)/2),
                retry_after := some (computeRetryAfter 1
                    (pyint (refilledTokens (some ⟨0, 0⟩) 0 ((1:ℚ)/2) 2))
                    (pyint ((1:ℚ)/2))) })
      ∧ pyint ((1:ℚ)/2) = 0
      ∧ computeRetryAfter 1 (pyint (refilledTokens (some ⟨0, 0⟩) 0 ((1:ℚ)/2) 2))
          (pyint ((1:ℚ)/2)) = 1 :=
  ⟨rfl, by norm_num [refilledTokens],
    C8_denial_is_a_value ⟨true, true⟩ (some ⟨0, 0⟩) ⟨1/2, 2⟩ 1 0 rfl
      (by norm_num [refilledTokens]),
    by norm_num [pyint],
    by norm_num [computeRetryAfter, pyint, refilledTokens]⟩

/-- Claim C4: one execution of the bucket update with cost 1 keeps the
stored token count within `[0, capacity]`, for a fresh bucket or any
stored bucket already in range, any timestamps, and a non-negative rate
and capacity. -/
theorem C4_stored_tokens_in_range :
    ∀ (bucket? : Option Bucket) (now rate capacity : ℚ),
      0 ≤ rate → 0 ≤ capacity →
      (∀ b, bucket? = some b → 0 ≤ b.tokens ∧ b.tokens ≤ capacity) →
      0 ≤ (tokenBucketScript bucket? now rate capacity 1).stored.tokens
        ∧ (tokenBucketScript bucket? now rate capacity 1).stored.tokens ≤ capacity := by
  intro bucket? now rate capacity hr hc hb
  have href : 0 ≤ refilledTokens bucket? now rate capacity
      ∧ refilledTokens bucket? now rate capacity ≤ capacity := by
    rcases bucket? with _ | b
    · simp only [refilledTokens]
      exact ⟨le_min hc (add_nonneg hc (mul_nonneg (le_max_left 0 _) hr)),
        min_le_left _ _⟩
    · simp only [refilledTokens]
      exact ⟨le_min hc (add_nonneg (hb b rfl).1 (mul_nonneg (le_max_left 0 _) hr)),
        min_le_left _ _⟩
  by_cases hge : (1:ℚ) ≤ refilledTokens bucket? now rate capacity
  · constructor
    · simp only [tokenBucketScript, if_pos hge]
      linarith [hge]
    · simp only [tokenBucketScript, if_pos hge]
      linarith [href.2]
  · constructor
    · simp only [tokenBucketScript, if_neg hge]
      exact href.1
    · simp only [tokenBucketScript, if_neg hge]
      exact href.2

/-- Witness for C4: an in-range bucket stays in range after an update. -/
theorem C4_witness :
    (0:ℚ) ≤ 1/2 ∧ (0:ℚ) ≤ 2
      ∧ (∀ b : Bucket, some (⟨1, 0⟩ : Bucket) = some b → 0 ≤ b.tokens ∧ b.tokens ≤ 2)
      ∧ (0 ≤ (tokenBucketScript (some ⟨1, 0⟩) 5 (1/2) 2 1).stored.tokens
          ∧ (tokenBucketScript (some ⟨1, 0⟩) 5 (1/2) 2 1).stored.tokens ≤ 2) :=
  ⟨by norm_num, by norm_num,
    by intro b hb; cases hb; constructor <;> norm_num,
    C4_stored_tokens_in_range (some ⟨1, 0⟩) 5 (1/2) 2 (by norm_num) (by norm_num)
      (by intro b hb; cases hb; constructor <;> norm_num)⟩

lemma refilledTokens_none_self (now rate capacity : ℚ) :
    refilledTokens none now rate capacity = capacity := by
  simp [refilledTokens]

lemma refilledTokens_same_time (b : Bucket) (now rate capacity : ℚ)
    (hlu : b.last_update = now) (hle : b.tokens ≤ capacity) :
    refilledTokens (some b) now rate capacity = b.tokens := by
  simp [refilledTokens, hlu, min_eq_right hle]

lemma tokenBucketScript_allowed (bucket? : Option Bucket)
    (now rate capacity cost : ℚ) :
    (tokenBucketScript bucket? now rate capacity cost).allowed
      = decide (cost ≤ refilledTokens bucket? now rate capacity) := by
  by_cases h : cost ≤ refilledTokens bucket? now rate capacity <;>
    simp [tokenBucketScript, h]

lemma burstState_closed (rate now : ℚ) (c : ℕ) (n : ℕ) :
    burstState rate (c : ℚ) now (n + 1) = some ⟨((c - (n + 1) : ℕ) : ℚ), now⟩ := by
  induction n with
  | zero =>
    show some (tokenBucketScript none now rate (c : ℚ) 1).stored
      = some ⟨((c - 1 : ℕ) : ℚ), now⟩
    by_cases h : (1 : ℚ) ≤ (c : ℚ)
    · have h1 : 1 ≤ c := by exact_mod_cast h
      have e : ((c - 1 : ℕ) : ℚ) = (c : ℚ) - 1 := by push_cast [h1]; ring
      simp only [tokenBucketScript, refilledTokens_none_self, if_pos h]
      rw [e]
    · have h0 : c = 0 := by
        rcases Nat.eq_zero_or_pos c with h0 | h0
        · exact h0
        · exact absurd (by exact_mod_cast h0 : (1:ℚ) ≤ (c:ℚ)) h
      subst h0
      simp only [tokenBucketScript, refilledTokens_none_self, if_neg h]
  | succ n ih =>
    show some (tokenBucketScript (burstState rate (c : ℚ) now (n + 1)) now rate (c : ℚ) 1).stored
      = some ⟨((c - (n + 2) : ℕ) : ℚ), now⟩
    rw [ih]
    have hle : (((c - (n + 1) : ℕ) : ℚ)) ≤ (c : ℚ) := by
      exact_mod_cast Nat.sub_le c (n + 1)
    by_cases h : (1 : ℚ) ≤ ((c - (n + 1) : ℕ) : ℚ)
    · have h1 : 1 ≤ c - (n + 1) := by exact_mod_cast h
      simp only [tokenBucketScript,
        refilledTokens_same_time ⟨((c - (n + 1) : ℕ) : ℚ), now⟩ now rate (c : ℚ) rfl hle,
        if_pos h]
      have e1 : ((c - (n + 2) : ℕ) : ℚ) = ((c - (n + 1) : ℕ) : ℚ) - 1 := by
        have h2 : c - (n + 2) + 1 = c - (n + 1) := by omega
        have h3 := congrArg (fun k : ℕ => (k : ℚ)) h2
        push_cast at h3
        linarith
      rw [e1]
    · have h0 : c - (n + 1) = 0 := by
        by_contra hne
        exact h (by exact_mod_cast Nat.one_le_iff_ne_zero.mpr hne)
      simp only [tokenBucketScript,
        refilledTokens_same_time ⟨((c - (n + 1) : ℕ) : ℚ), now⟩ now rate (c : ℚ) rfl hle,
        if_neg h]
      have h0' : c - (n + 2) = 0 := by omega
      rw [h0, h0']

lemma burstAdmitted_eq_decide (rate now : ℚ) (c : ℕ) (i : ℕ) :
    burstAdmitted rate (c : ℚ) now i = decide (i < c) := by
  cases i with
  | zero =>
    rw [burstAdmitted, tokenBucketScript_allowed,
      show burstState rate (c:ℚ) now 0 = none from rfl, refilledTokens_none_self]
    have hiff : ((1:ℚ) ≤ (c : ℚ)) ↔ 0 < c := by
      rw [show (1:ℚ) = ((1:ℕ):ℚ) by norm_num, Nat.cast_le]
      omega
    simp only [decide_eq_decide]
    exact hiff
  | succ j =>
    rw [burstAdmitted, tokenBucketScript_allowed, burstState_closed,
      refilledTokens_same_time ⟨((c - (j + 1) : ℕ) : ℚ), now⟩ now rate (c : ℚ) rfl
        (by show ((c - (j + 1) : ℕ) : ℚ) ≤ (c : ℚ)
            exact_mod_cast Nat.sub_le c (j + 1))]
    simp only [decide_eq_decide]
    rw [show (1:ℚ) = ((1:ℕ):ℚ) by norm_num, Nat.cast_le]
    omega

lemma countP_range_decide_lt (c n : ℕ) :
    (List.range n).countP (fun i => decide (i < c)) = min n c := by
  induction n with
  | zero => simp
  | succ n ih =>
    rw [List.range_succ, List.countP_append, ih]
    by_cases h : n < c <;> simp [List.countP_cons, h] <;> omega

/-- Claim C2: starting from a fresh bucket with capacity `c`, a burst of
`n > c` sequential cost-1 requests at one timestamp admits exactly
`min n c = c` requests, and every request after the `c`-th (index `i ≥ c`,
counting from 0) is denied — no refill can occur with zero elapsed time. -/
theorem C2_burst_conservation :
    ∀ (c n : ℕ) (rate now : ℚ), c < n →
      burstAdmitCount rate (c : ℚ) now n = min n c
        ∧ ∀ i : ℕ, c ≤ i → burstAdmitted rate (c : ℚ) now i = false := by
  intro c n rate now _
  constructor
  · unfold burstAdmitCount
    simp only [burstAdmitted_eq_decide]
    exact countP_range_decide_lt c n
  · intro i hi
    rw [burstAdmitted_eq_decide]
    simp only [decide_eq_false_iff_not]
    omega

/-- Witness for C2: capacity 2, five requests — two admitted, the rest
denied. -/
theorem C2_witness :
    (2 : ℕ) < 5
      ∧ (burstAdmitCount (1/2) ((2:ℕ) : ℚ) 0 5 = min 5 2
          ∧ ∀ i : ℕ, 2 ≤ i → burstAdmitted (1/2) ((2:ℕ) : ℚ) 0 i = false) :=
  ⟨by decide, C2_burst_conservation 2 5 (1/2) 0 (by decide)⟩

lemma burstState_two_drained : burstState (1/2) 2 0 2 = some ⟨0, 0⟩ := by
  have h := burstState_closed (1/2) 0 2 1
  norm_num at h
  exact h

/-- Claim C3 fails on the code: Redis truncates the Lua reply's numbers to
integers, so for the 0.5-rate policy `tokens_per_second = result[3]` is 0
and line 177's `if tokens_per_second > 0` fails — on the spec's own
scenario (rate 1/2, capacity 2, fresh bucket, three immediate cost-1
requests) the third request is denied with `retry_after = 1` and
`rate = 0`, while the claimed formula `max(1, ceil((cost - tokens)/rate))`
yields 2. -/
theorem C3_counterexample :
    RateLimiter.check_rate_limit ⟨true, true⟩ (Except.ok (burstState (1/2) 2 0 2))
        ⟨1/2, 2⟩ 1 0
      = (false, { tokens_remaining := 0, limit := 2, rate := 0, retry_after := some 1 })
    ∧ some (1:ℤ) ≠ some 2
    ∧ max 1 ⌈((1:ℚ) - 0) / (1/2)⌉ = 2 := by
  refine ⟨?_, by decide, ?_⟩
  · rw [burstState_two_drained]
    norm_num [RateLimiter.check_rate_limit, RateLimiter.is_enabled, tokenBucketScript,
      refilledTokens, computeRetryAfter, pyint, min_def, max_def]
  · norm_num [max_def]

/-- Claim C3 amended: the caller layer computes the retry delay from the
integer-truncated script reply — `max(1, int(tokens_needed / rate) + 1)`
when the truncated rate is positive, and 1 otherwise (so every
fractional-rate policy falls into the fallback branch); in particular,
with rate 1/2 (reply rate truncated to 0), capacity 2 and a fresh bucket,
the third immediate cost-1 request is denied with `retry_after = 1`. -/
theorem C3_amended_retry_after_formula :
    (∀ (st : RateLimiterState) (bucket? : Option Bucket) (config : RateLimitConfig)
        (tokens_requested : ℤ) (now : ℚ),
        RateLimiter.is_enabled st = true →
        refilledTokens bucket? now config.tokens_per_second config.burst_capacity
            < (tokens_requested : ℚ) →
        (RateLimiter.check_rate_limit st (Except.ok bucket?) config
            tokens_requested now).2.retry_after
          = some (if 0 < pyint config.tokens_per_second
              then max 1 (pyint (((tokens_requested - pyint (refilledTokens bucket? now
                  config.tokens_per_second config.burst_capacity) : ℤ) : ℚ)
                    / ((pyint config.tokens_per_second : ℤ) : ℚ)) + 1)
              else 1))
    ∧ (RateLimiter.check_rate_limit ⟨true, true⟩ (Except.ok (burstState (1/2) 2 0 2))
          ⟨1/2, 2⟩ 1 0).1 = false
    ∧ (RateLimiter.check_rate_limit ⟨true, true⟩ (Except.ok (burstState (1/2) 2 0 2))
          ⟨1/2, 2⟩ 1 0).2.retry_after = some 1 := by
  refine ⟨?_, ?_, ?_⟩
  · intro st bucket? config tr now h hlt
    have hna : ¬ (tr : ℚ) ≤ refilledTokens bucket? now config.tokens_per_second
        config.burst_capacity := not_le.mpr hlt
    simp [RateLimiter.check_rate_limit, h, tokenBucketScript, hna, computeRetryAfter]
  · rw [burstState_two_drained]
    norm_num [RateLimiter.check_rate_limit, RateLimiter.is_enabled, tokenBucketScript,
      refilledTokens, min_def, max_def]
  · rw [burstState_two_drained]
    norm_num [RateLimiter.check_rate_limit, RateLimiter.is_enabled, tokenBucketScript,
      refilledTokens, computeRetryAfter, pyint, min_def, max_def]

/-- Witness for the amended C3 at the scenario's third request: the
truncated rate 0 takes the fallback branch, giving `retry_after = 1`. -/
theorem C3_amended_witness :
    RateLimiter.is_enabled ⟨true, true⟩ = true
      ∧ refilledTokens (some ⟨0, 0⟩) 0 ((1:ℚ)/2) 2 < ((1:ℤ) : ℚ)
      ∧ (RateLimiter.check_rate_limit ⟨true, true⟩ (Except.ok (some ⟨0, 0⟩))
            ⟨1/2, 2⟩ 1 0).2.retry_after
          = some (if 0 < pyint ((1:ℚ)/2)
              then max 1 (pyint (((1 - pyint (refilledTokens (some ⟨0, 0⟩) 0 ((1:ℚ)/2) 2) : ℤ) : ℚ)
                  / ((pyint ((1:ℚ)/2) : ℤ) : ℚ)) + 1)
              else 1)
      ∧ (if 0 < pyint ((1:ℚ)/2)
          then max 1 (pyint (((1 - pyint (refilledTokens (some ⟨0, 0⟩) 0 ((1:ℚ)/2) 2) : ℤ) : ℚ)
              / ((pyint ((1:ℚ)/2) : ℤ) : ℚ)) + 1)
          else 1) = 1 :=
  ⟨rfl, by norm_num [refilledTokens],
    C3_amended_retry_after_formula.1 ⟨true, true⟩ (some ⟨0, 0⟩) ⟨1/2, 2⟩ 1 0 rfl
      (by norm_num [refilledTokens]),
    by norm_num [pyint]⟩
